import Mathlib

/-!
# Verification of the Clipper query-serving frontends

Shallow embedding of `src/frontends/src/query_frontend.hpp` and
`src/zmq_frontend/src/frontend_rpc_service.hpp`, together with theorems
settling the specification claims about the HTTP and ZMQ frontends.

C++ `double` values are modelled as rationals (`CDouble := Rat`): no claim
under consideration depends on floating-point rounding, only on values being
carried through unchanged.
-/

namespace Clipper

abbrev CDouble := Rat

/-- The five input data-type tags, from `clipper::InputType`
(`parse_input_type` accepts doubles, ints, strings, bytes, floats). -/
inductive InputType where
  | doubles
  | ints
  | strings
  | bytes
  | floats
deriving DecidableEq, Repr

/-- `clipper::VersionedModelId`: a (model-name, version) pair. -/
structure VersionedModelId where
  name : String
  version : Int
deriving DecidableEq, Repr

/-- `clipper::Output`: predicted value `y_hat_` plus the models used. -/
structure Output where
  y_hat : CDouble
  models_used : List VersionedModelId
deriving DecidableEq, Repr

/-- The fields of `clipper::Response` that the frontend reads when rendering
an HTTP prediction response: `query_id_`, `output_`, `output_is_default_`. -/
structure Response where
  query_id : Int
  output : Output
  output_is_default : Bool
deriving DecidableEq, Repr

/-! ## JSON documents

Model of the rapidjson documents the frontend builds (an object is an ordered
member list; `AddMember` appends) and of parsed request documents. -/

inductive JVal where
  | jInt (n : Int)
  | jDouble (q : CDouble)
  | jStr (s : String)
  | jBool (b : Bool)
  | jArr (xs : List JVal)
  | jObj (fields : List (String × JVal))

abbrev JsonObj := List (String × JVal)

/-- `clipper::json::add_long`: appends an integer member to the object. -/
def add_long (o : JsonObj) (key : String) (v : Int) : JsonObj :=
  o ++ [(key, JVal.jInt v)]

/-- `clipper::json::add_double`: appends a double member to the object. -/
def add_double (o : JsonObj) (key : String) (v : CDouble) : JsonObj :=
  o ++ [(key, JVal.jDouble v)]

/-- `clipper::json::add_bool`: appends a boolean member to the object. -/
def add_bool (o : JsonObj) (key : String) (v : Bool) : JsonObj :=
  o ++ [(key, JVal.jBool v)]

/-- `clipper::json::add_string`: appends a string member to the object. -/
def add_string (o : JsonObj) (key : String) (v : String) : JsonObj :=
  o ++ [(key, JVal.jStr v)]

mutual

/-- Serialization of a JSON value (`clipper::json::to_json_string`). -/
def serializeJVal : JVal → String
  | JVal.jInt n => toString n
  | JVal.jDouble q => toString q
  | JVal.jStr s => "\"" ++ s ++ "\""
  | JVal.jBool b => if b then "true" else "false"
  | JVal.jArr xs => "[" ++ serializeJList xs ++ "]"
  | JVal.jObj fields => "\x7b" ++ serializeJFields fields ++ "\x7d"

def serializeJList : List JVal → String
  | [] => ""
  | [x] => serializeJVal x
  | x :: y :: rest => serializeJVal x ++ "," ++ serializeJList (y :: rest)

def serializeJFields : List (String × JVal) → String
  | [] => ""
  | [kv] => "\"" ++ kv.1 ++ "\":" ++ serializeJVal kv.2
  | kv :: kv2 :: rest =>
      "\"" ++ kv.1 ++ "\":" ++ serializeJVal kv.2 ++ "," ++
        serializeJFields (kv2 :: rest)

end

/-- `clipper::json::to_json_string` applied to an object document. -/
def to_json_string (o : JsonObj) : String :=
  serializeJVal (JVal.jObj o)

end Clipper

namespace QueryFrontend

open Clipper

/-! ## Constants of `query_frontend.hpp` -/

def PREDICTION_RESPONSE_KEY_QUERY_ID : String := "query_id"
def PREDICTION_RESPONSE_KEY_OUTPUT : String := "output"
def PREDICTION_RESPONSE_KEY_USED_DEFAULT : String := "default"
def PREDICTION_ERROR_RESPONSE_KEY_ERROR : String := "error"
def PREDICTION_ERROR_RESPONSE_KEY_CAUSE : String := "cause"

def PREDICTION_ERROR_NAME_JSON : String := "Json error"
def PREDICTION_ERROR_NAME_QUERY_PROCESSING : String := "Query processing error"

def PREDICTION_JSON_SCHEMA : String :=
  "\n  \x7b\n   \"uid\" := string,\n   \"input\" := [double] | [int] | [string] | [byte] | [float],\n  \x7d\n"

def UPDATE_JSON_SCHEMA : String :=
  "\n  \x7b\n   \"uid\" := string,\n   \"input\" := [double] | [int] | [string] | [byte] | [float],\n   \"label\" := double\n  \x7d\n"

/-- `json_error_msg`: user-facing error text combining the exception message
with the expected schema. -/
def json_error_msg (exception_msg expected_schema : String) : String :=
  "Error parsing JSON: " ++ exception_msg ++ ". " ++
    "Expected JSON schema: " ++ expected_schema

/-- The `(content, status message)` pair a handler passes to `respond_http`. -/
structure HttpAction where
  content : String
  status : String
deriving DecidableEq, Repr

/-! ## Prediction and update response rendering -/

/-- The rapidjson document built by `get_prediction_response_content`:
`add_long "query_id"`, then `add_double "output"`, then `add_bool "default"`
on a fresh object. -/
def prediction_response_doc (r : Response) : JsonObj :=
  add_bool
    (add_double
      (add_long [] PREDICTION_RESPONSE_KEY_QUERY_ID r.query_id)
      PREDICTION_RESPONSE_KEY_OUTPUT r.output.y_hat)
    PREDICTION_RESPONSE_KEY_USED_DEFAULT r.output_is_default

/-- `RequestHandler::get_prediction_response_content`. -/
def get_prediction_response_content (r : Response) : String :=
  to_json_string (prediction_response_doc r)

/-- The rapidjson document built by `get_prediction_error_response_content`. -/
def prediction_error_response_doc (error_name error_msg : String) : JsonObj :=
  add_string
    (add_string [] PREDICTION_ERROR_RESPONSE_KEY_ERROR error_name)
    PREDICTION_ERROR_RESPONSE_KEY_CAUSE error_msg

/-- `RequestHandler::get_prediction_error_response_content`. -/
def get_prediction_error_response_content (error_name error_msg : String) : String :=
  to_json_string (prediction_error_response_doc error_name error_msg)

/-- The possible outcomes of the body of `predict_fn` in `add_application`:
either `decode_and_handle_predict` succeeds and the prediction future
completes with a `Response`, or one of the four caught exceptions is thrown. -/
inductive PredictOutcome where
  | success (r : Response)
  | jsonParseError (msg : String)
  | jsonSemanticError (msg : String)
  | invalidArgument (msg : String)
  | predictError (msg : String)
deriving DecidableEq, Repr

/-- The HTTP action `predict_fn` performs for each outcome, read off the
try/catch structure of `add_application`'s `predict_fn` lambda. -/
def predict_fn_respond : PredictOutcome → HttpAction
  | PredictOutcome.success r =>
      ⟨get_prediction_response_content r, "200 OK"⟩
  | PredictOutcome.jsonParseError e =>
      ⟨get_prediction_error_response_content PREDICTION_ERROR_NAME_JSON
          (json_error_msg e PREDICTION_JSON_SCHEMA),
        "400 Bad Request"⟩
  | PredictOutcome.jsonSemanticError e =>
      ⟨get_prediction_error_response_content PREDICTION_ERROR_NAME_JSON
          (json_error_msg e PREDICTION_JSON_SCHEMA),
        "400 Bad Request"⟩
  | PredictOutcome.invalidArgument e =>
      ⟨get_prediction_error_response_content PREDICTION_ERROR_NAME_JSON e,
        "400 Bad Request"⟩
  | PredictOutcome.predictError e =>
      ⟨get_prediction_error_response_content
          PREDICTION_ERROR_NAME_QUERY_PROCESSING e,
        "400 Bad Request"⟩

/-- C++ `ostream` insertion of a `bool` with default formatting flags
(`boolalpha` unset): `true` prints as `1`, `false` as `0`. `FeedbackAck`
is a boolean acknowledgment, and `update_fn` streams it with
`ss << "Feedback received? " << ack`. -/
def ostream_insert_bool (b : Bool) : String :=
  if b then "1" else "0"

/-- The possible outcomes of the body of `update_fn` in `add_application`. -/
inductive UpdateOutcome where
  | success (ack : Bool)
  | jsonParseError (msg : String)
  | jsonSemanticError (msg : String)
  | invalidArgument (msg : String)
deriving DecidableEq, Repr

/-- The HTTP action `update_fn` performs for each outcome, read off the
try/catch structure of `add_application`'s `update_fn` lambda. Note the
catch clauses respond with the plain `json_error_msg` text, not with
`get_prediction_error_response_content`. -/
def update_fn_respond : UpdateOutcome → HttpAction
  | UpdateOutcome.success ack =>
      ⟨"Feedback received? " ++ ostream_insert_bool ack, "200 OK"⟩
  | UpdateOutcome.jsonParseError e =>
      ⟨json_error_msg e UPDATE_JSON_SCHEMA, "400 Bad Request"⟩
  | UpdateOutcome.jsonSemanticError e =>
      ⟨json_error_msg e UPDATE_JSON_SCHEMA, "400 Bad Request"⟩
  | UpdateOutcome.invalidArgument e =>
      ⟨e, "400 Bad Request"⟩

end QueryFrontend

namespace QueryFrontend

open Clipper

/-! ## Selection-policy state and the application registrar

`clipper::StateTable`, `clipper::DefaultOutputSelectionPolicy` and
`clipper::DEFAULT_USER_ID` live in headers that are not part of this tree;
they are modelled from the spec where marked. -/

/-- `clipper::StateKey`: `(application-name, user-id, model-version)`. -/
structure StateKey where
  app : String
  user : Nat
  version : Nat
deriving DecidableEq, Repr

/-- Modelled from the spec: `clipper::DEFAULT_USER_ID`, the default user id
under which `add_application` initializes selection-policy state
(spec: state is keyed by `(name, default-user-id, 0)`). -/
def DEFAULT_USER_ID : Nat := 0

/-- Modelled from the spec: `StateTable::put` is last-writer-wins on a
concurrent map from `StateKey` to opaque serialized policy state. -/
def statePut (t : List (StateKey × String)) (k : StateKey) (v : String) :
    List (StateKey × String) :=
  t.filter (fun p => p.1 != k) ++ [(k, v)]

/-- Modelled from the spec: `StateTable::get` looks up the serialized state
stored under a key. -/
def stateGet (t : List (StateKey × String)) (k : StateKey) : Option String :=
  (t.find? (fun p => p.1 == k)).map Prod.snd

/-- Decimal digit sequence value, most significant first. -/
def digitsVal (l : List Char) : Nat :=
  l.foldl (fun a c => a * 10 + (c.toNat - 48)) 0

/-- Modelled from the spec: `std::stod` applied to the configured
`default_output` string; covers plain decimal literals with an optional
sign and fraction, which is what application records carry. -/
def stod (s : String) : CDouble :=
  let mag : List Char → Rat := fun l =>
    let intPart := l.takeWhile Char.isDigit
    let afterInt := l.dropWhile Char.isDigit
    let fracPart :=
      if afterInt.head? = some '.' then afterInt.tail.takeWhile Char.isDigit
      else []
    (digitsVal intPart : Rat) +
      (digitsVal fracPart : Rat) / (10 : Rat) ^ fracPart.length
  if s.data.head? = some '-' then -(mag s.data.tail) else mag s.data

/-- Modelled from the spec: `DefaultOutputSelectionPolicy::get_name()`.
Only its equality with an application record's `policy` field matters. -/
def default_output_policy_name : String := "DefaultOutputSelectionPolicy"

/-- Modelled from the spec: the default-output policy's state is solely
the configured default output (`init_state` stores the parsed `Output`). -/
def default_policy_init_state (default_output : Output) : Output :=
  default_output

/-- Modelled from the spec: the policy's opaque serialization of its state;
rendered as the numerator/denominator pair of the default value. -/
def default_policy_serialize (state : Output) : String :=
  toString state.y_hat.num ++ "/" ++ toString state.y_hat.den

/-- The configuration of one registered application, i.e. the arguments of
`RequestHandler::add_application`. -/
structure AppConfig where
  name : String
  candidate_models : List VersionedModelId
  input_type : InputType
  policy : String
  default_output : String
  latency_slo_micros : Int
deriving DecidableEq, Repr

/-- Which handler closure an HTTP endpoint was installed with. -/
inductive EndpointHandler where
  | metrics
  | predict (cfg : AppConfig)
  | update (cfg : AppConfig)
deriving DecidableEq, Repr

/-- One registered HTTP endpoint: URL pattern regex, method, handler. -/
structure Endpoint where
  pattern : String
  method : String
  handler : EndpointHandler
deriving DecidableEq, Repr

/-- Modelled from the spec: `HttpServer::add_endpoint` registers one more
handler with the server; `num_endpoints` reports how many have been
registered. -/
def add_endpoint (eps : List Endpoint) (e : Endpoint) : List Endpoint :=
  eps ++ [e]

def GET_METRICS : String := "^/metrics$"

/-- The `/metrics` endpoint installed by the `RequestHandler` constructor. -/
def metrics_endpoint : Endpoint :=
  ⟨GET_METRICS, "GET", EndpointHandler.metrics⟩

/-- The predict endpoint `add_application` installs:
pattern `^/<name>/predict$`, method POST. -/
def predict_endpoint (cfg : AppConfig) : Endpoint :=
  ⟨"^/" ++ cfg.name ++ "/predict$", "POST", EndpointHandler.predict cfg⟩

/-- The update endpoint `add_application` installs:
pattern `^/<name>/update$`, method POST. -/
def update_endpoint (cfg : AppConfig) : Endpoint :=
  ⟨"^/" ++ cfg.name ++ "/update$", "POST", EndpointHandler.update cfg⟩

/-- The state a `RequestHandler` holds that the claims observe: the HTTP
server's endpoints and the query processor's selection-policy state table. -/
structure HandlerState where
  endpoints : List Endpoint
  state_table : List (StateKey × String)
deriving DecidableEq, Repr

/-- A freshly constructed `RequestHandler`: the constructor registers the
`/metrics` endpoint and subscribes to application changes; the state table
starts empty. -/
def freshHandler : HandlerState :=
  ⟨[metrics_endpoint], []⟩

/-- `RequestHandler::add_application`: if the policy is the default-output
policy, parse the default output and `put` the serialized initial state
under `(name, DEFAULT_USER_ID, 0)`; then install the predict endpoint and
the update endpoint. -/
def add_application (st : HandlerState) (cfg : AppConfig) : HandlerState :=
  let table :=
    if cfg.policy = default_output_policy_name then
      statePut st.state_table ⟨cfg.name, DEFAULT_USER_ID, 0⟩
        (default_policy_serialize
          (default_policy_init_state ⟨stod cfg.default_output, []⟩))
    else st.state_table
  let eps := add_endpoint (add_endpoint st.endpoints (predict_endpoint cfg))
    (update_endpoint cfg)
  ⟨eps, table⟩

/-- `HttpServer::num_endpoints`. -/
def num_endpoints (st : HandlerState) : Nat :=
  st.endpoints.length

/-- `RequestHandler::num_applications`: subtract the `/metrics` endpoint,
assert the remainder is even, halve it. -/
def num_applications (st : HandlerState) : Nat :=
  (num_endpoints st - 1) / 2

/-- The `assert(count % 2 == 0)` inside `num_applications`. -/
def num_applications_assertion (st : HandlerState) : Prop :=
  (num_endpoints st - 1) % 2 = 0

/-- The fields of an application record as read back from the configuration
store (`get_application_by_key` plus the field parsing in the callback). -/
structure AppRecord where
  candidate_models : List VersionedModelId
  input_type : InputType
  policy : String
  default_output : String
  latency_slo_micros : Int
deriving DecidableEq, Repr

/-- The outcome of one delivery of the application-changes callback:
the handler state afterwards and the list of store keys it read. -/
structure CallbackResult where
  state : HandlerState
  reads : List String
deriving DecidableEq, Repr

/-- The callback `RequestHandler::RequestHandler` passes to
`subscribe_to_application_changes`: on `event_type == "hset"` it reads the
application record for `key` from the store and calls `add_application`
with `name = key` and the record's fields; on any other event type it does
nothing. `store` models the configuration store's contents. -/
def application_changes_callback (store : String → AppRecord)
    (st : HandlerState) (key event_type : String) : CallbackResult :=
  if event_type = "hset" then
    let r := store key
    ⟨add_application st
        ⟨key, r.candidate_models, r.input_type, r.policy, r.default_output,
          r.latency_slo_micros⟩,
      [key]⟩
  else ⟨st, []⟩

end QueryFrontend

namespace QueryFrontend

open Clipper

/-! ## Request decoding (`decode_and_handle_predict`)

The JSON accessors live in `clipper/json_util.hpp`, which is not part of
this tree; they are modelled from the spec where marked. The document the
body parsed to is given as a `JVal`. -/

inductive JsonErr where
  | parseErr (msg : String)
  | semanticErr (msg : String)
deriving DecidableEq, Repr

/-- Field lookup in a parsed JSON object. -/
def jsonLookup (fields : List (String × JVal)) (key : String) : Option JVal :=
  (fields.find? (fun p => p.1 == key)).map Prod.snd

/-- Modelled from the spec: `clipper::json::get_long` reads field `key` of
the document as a long integer; a missing field or a value of any other
JSON type is a JSON semantic error (§7: schema/type mismatch). -/
def get_long (d : JVal) (key : String) : Except JsonErr Int :=
  match d with
  | JVal.jObj fields =>
      match jsonLookup fields key with
      | some (JVal.jInt n) => Except.ok n
      | _ => Except.error (JsonErr.semanticErr key)
  | _ => Except.error (JsonErr.semanticErr key)

/-- Whether one element of the `input` array has the JSON type matching the
application's input type. -/
def elementMatches (t : InputType) : JVal → Bool
  | JVal.jDouble _ => t == InputType.doubles || t == InputType.floats
  | JVal.jInt _ => t == InputType.ints || t == InputType.bytes
  | JVal.jStr _ => t == InputType.strings
  | _ => false

/-- Modelled from the spec: `clipper::json::parse_input` reads the `input`
field as an array whose element type must match the application's
`input_type`; mismatches are rejected at parse time with a JSON semantic
error (§3). -/
def parse_input (t : InputType) (d : JVal) : Except JsonErr (List JVal) :=
  match d with
  | JVal.jObj fields =>
      match jsonLookup fields "input" with
      | some (JVal.jArr xs) =>
          if xs.all (elementMatches t) then Except.ok xs
          else Except.error (JsonErr.semanticErr "input")
      | _ => Except.error (JsonErr.semanticErr "input")
  | _ => Except.error (JsonErr.semanticErr "input")

/-- `clipper::Query` as constructed by `decode_and_handle_predict`:
application name, user id, input, latency budget, policy, models. -/
structure Query where
  app_name : String
  user_id : Int
  input : List JVal
  latency_slo_micros : Int
  selection_policy : String
  candidate_models : List VersionedModelId

/-- `RequestHandler::decode_and_handle_predict` on an already-parsed body:
`get_long(d, "uid")`, then `parse_input(input_type, d)`, then hand the
constructed `Query` to the query processor. An error is reported to the
client as a 400 response; a constructed `Query` reaches the processor. -/
def decode_and_handle_predict (d : JVal) (name : String)
    (models : List VersionedModelId) (policy : String)
    (latency_slo_micros : Int) (input_type : InputType) :
    Except JsonErr Query := do
  let uid ← get_long d "uid"
  let input ← parse_input input_type d
  return ⟨name, uid, input, latency_slo_micros, policy, models⟩

end QueryFrontend

namespace ZmqFrontend

/-! ## Constants of `frontend_rpc_service.hpp` -/

def RESPONSE_QUEUE_SIZE : Nat := 80000
def NUM_REQUESTS_RECV : Nat := 100
def NUM_RESPONSES_SEND : Nat := 1000

/-- `sizeof(float)` on the target platform: 4 bytes. -/
def SIZEOF_FLOAT : Nat := 4

/-- `TOTAL_DATA_BYTES = 299 * 299 * 3 * sizeof(float) * RESPONSE_QUEUE_SIZE`. -/
def TOTAL_DATA_BYTES : Nat :=
  299 * 299 * 3 * SIZEOF_FLOAT * RESPONSE_QUEUE_SIZE

/-- Written from the spec's words, for comparison with the source constant:
the maximum number of concurrently in-flight requests the arena is sized
for (~80 000). -/
def spec_max_in_flight : Nat := 80000

/-- Written from the spec's words, for comparison with the source constant:
the size in bytes of one 299×299×3 float tensor payload. -/
def spec_max_payload_bytes : Nat := 299 * 299 * 3 * SIZEOF_FLOAT

/-- Written from the spec's words, for comparison with the source constant:
the arena size the non-overlap invariant requires,
`2 × max_in_flight × max_payload_bytes`. -/
def spec_required_arena_bytes : Nat :=
  2 * spec_max_in_flight * spec_max_payload_bytes

end ZmqFrontend

namespace QueryFrontend

/-! ## The HTTP wire written by `respond_http`

`respond_http` streams `"HTTP/1.1 " << message << "\r\nContent-Length: "
<< content.length() << "\r\n\r\n" << content << "\n"` into the response.
The stream is modelled as the list of characters written; the decimal
rendering of `content.length()` performed by the ostream is `natToDecimal`. -/

/-- Decimal digits of a number accumulated most-significant-first. -/
def natToDecimalAux : Nat → List Char → List Char
  | 0, acc => acc
  | n + 1, acc =>
      natToDecimalAux ((n + 1) / 10) (Char.ofNat (48 + (n + 1) % 10) :: acc)
decreasing_by exact Nat.div_lt_self (Nat.succ_pos n) (by norm_num)

/-- Decimal rendering of a natural number, as an ostream writes it. -/
def natToDecimal (n : Nat) : List Char :=
  if n = 0 then ['0'] else natToDecimalAux n []

/-- `respond_http`: the exact character stream written to the response. -/
def respond_http (content message : String) : List Char :=
  "HTTP/1.1 ".data ++ message.data ++ "\r\nContent-Length: ".data ++
    natToDecimal content.length ++ "\r\n\r\n".data ++ content.data ++ "\n".data

/-- HTTP framing: split a raw response at the first blank line
(`CRLF CRLF`); the first component is the status line plus headers, the
second is the transmitted body. -/
def splitAtBlank : List Char → Option (List Char × List Char)
  | [] => none
  | c :: rest =>
      if (c :: rest).take 4 = ['\r', '\n', '\r', '\n'] then
        some ([], rest.drop 3)
      else
        (splitAtBlank rest).map (fun p => (c :: p.1, p.2))

/-- The Content-Length value a receiver reads off the headers produced by
`respond_http`: the decimal digit suffix of the header block. -/
def declared_content_length (header : List Char) : Nat :=
  digitsVal (header.reverse.takeWhile Char.isDigit).reverse

end QueryFrontend

namespace QueryFrontend

open Clipper

/-! ## Helper lemmas -/

theorem to_json_string_head (o : JsonObj) :
    (to_json_string o).data.head? = some '\x7b' := by
  show (serializeJVal (JVal.jObj o)).data.head? = some '\x7b'
  rw [serializeJVal]
  rfl

theorem foldl_add_application_length (cfgs : List AppConfig)
    (st : HandlerState) :
    (cfgs.foldl add_application st).endpoints.length =
      st.endpoints.length + 2 * cfgs.length := by
  induction cfgs generalizing st with
  | nil => simp
  | cons c cs ih =>
      rw [List.foldl_cons, ih]
      simp [add_application, add_endpoint]
      omega

/-! ## Claims -/

/-- C1: for every prediction future that completes successfully, the HTTP
frontend responds on POST /&lt;app&gt;/predict with status 200 and a JSON body
containing exactly the keys `query_id` (the response's query id), `output`
(the predicted value), and `default` (the used_default flag). -/
theorem C1_predict_success_response (r : Response) :
    (predict_fn_respond (PredictOutcome.success r)).status = "200 OK" ∧
    (predict_fn_respond (PredictOutcome.success r)).content =
      to_json_string (prediction_response_doc r) ∧
    (prediction_response_doc r).map Prod.fst =
      [PREDICTION_RESPONSE_KEY_QUERY_ID, PREDICTION_RESPONSE_KEY_OUTPUT,
        PREDICTION_RESPONSE_KEY_USED_DEFAULT] ∧
    jsonLookup (prediction_response_doc r) "query_id" =
      some (JVal.jInt r.query_id) ∧
    jsonLookup (prediction_response_doc r) "output" =
      some (JVal.jDouble r.output.y_hat) ∧
    jsonLookup (prediction_response_doc r) "default" =
      some (JVal.jBool r.output_is_default) := by
  refine ⟨rfl, rfl, rfl, rfl, rfl, rfl⟩

/-- C3 counterexample: on a feedback future completing with `ack = true`,
the body is `"Feedback received? 1"`, not `"Feedback received? true"`
(C++ streams print `bool` as `1`/`0` unless `boolalpha` is set). -/
theorem C3_counterexample :
    update_fn_respond (UpdateOutcome.success true) =
      ⟨"Feedback received? 1", "200 OK"⟩ ∧
    (update_fn_respond (UpdateOutcome.success true)).content ≠
      "Feedback received? true" := by
  exact ⟨rfl, by decide⟩

/-- C3 (amended): for every feedback future completing with acknowledgment
`ack`, the frontend responds 200 with body `"Feedback received? 1"` when
`ack` is true and `"Feedback received? 0"` when `ack` is false. -/
theorem C3_update_success_response (ack : Bool) :
    (update_fn_respond (UpdateOutcome.success ack)).status = "200 OK" ∧
    (update_fn_respond (UpdateOutcome.success ack)).content =
      "Feedback received? " ++ (if ack then "1" else "0") := by
  cases ack <;> exact ⟨rfl, rfl⟩

/-- C4 counterexample: a parse error on POST /&lt;app&gt;/update yields status 400
but the body is the plain `json_error_msg` text (starting with `E`), which
is not the `{error, cause}` JSON object the predict endpoint produces. -/
theorem C4_counterexample :
    (update_fn_respond (UpdateOutcome.jsonParseError "boom")).status =
      "400 Bad Request" ∧
    (update_fn_respond (UpdateOutcome.jsonParseError "boom")).content =
      json_error_msg "boom" UPDATE_JSON_SCHEMA ∧
    (update_fn_respond
        (UpdateOutcome.jsonParseError "boom")).content.data.head? ≠
      some '\x7b' ∧
    (update_fn_respond (UpdateOutcome.jsonParseError "boom")).content ≠
      get_prediction_error_response_content PREDICTION_ERROR_NAME_JSON
        (json_error_msg "boom" UPDATE_JSON_SCHEMA) := by
  refine ⟨rfl, rfl, by decide, by decide⟩

/-- C4 (amended): JSON parse and semantic errors on POST /&lt;app&gt;/update get
status 400, but the body is the plain `json_error_msg` text — it starts
with `E`, while every serialized JSON object starts with a brace — so the
update endpoint does not share the predict endpoint's `{error, cause}`
error-body shape. -/
theorem C4_update_error_response (e : String) :
    (update_fn_respond (UpdateOutcome.jsonParseError e)).status =
      "400 Bad Request" ∧
    (update_fn_respond (UpdateOutcome.jsonParseError e)).content =
      json_error_msg e UPDATE_JSON_SCHEMA ∧
    (update_fn_respond (UpdateOutcome.jsonSemanticError e)).status =
      "400 Bad Request" ∧
    (update_fn_respond (UpdateOutcome.jsonSemanticError e)).content =
      json_error_msg e UPDATE_JSON_SCHEMA ∧
    (update_fn_respond
        (UpdateOutcome.jsonParseError e)).content.data.head? = some 'E' ∧
    (to_json_string (prediction_error_response_doc PREDICTION_ERROR_NAME_JSON
        (json_error_msg e UPDATE_JSON_SCHEMA))).data.head? = some '\x7b' := by
  refine ⟨rfl, rfl, rfl, rfl, rfl, to_json_string_head _⟩

/-- C6 counterexample: the arena's total size,
`299·299·3·sizeof(float)·RESPONSE_QUEUE_SIZE`, is strictly below the
`2 × max_in_flight × max_payload_bytes` bound the sizing invariant
requires. -/
theorem C6_counterexample :
    ZmqFrontend.TOTAL_DATA_BYTES < ZmqFrontend.spec_required_arena_bytes := by
  norm_num [ZmqFrontend.TOTAL_DATA_BYTES, ZmqFrontend.spec_required_arena_bytes,
    ZmqFrontend.spec_max_in_flight, ZmqFrontend.spec_max_payload_bytes,
    ZmqFrontend.RESPONSE_QUEUE_SIZE, ZmqFrontend.SIZEOF_FLOAT]

/-- C6 (amended): the arena totals exactly
`max_in_flight × max_payload_bytes` bytes (85 824 960 000) — one times, not
the two times the non-overlap invariant demands, so the `≥ 2×` sizing bound
fails. -/
theorem C6_arena_size :
    ZmqFrontend.TOTAL_DATA_BYTES =
      ZmqFrontend.spec_max_in_flight * ZmqFrontend.spec_max_payload_bytes ∧
    ZmqFrontend.TOTAL_DATA_BYTES = 85824960000 ∧
    ZmqFrontend.TOTAL_DATA_BYTES <
      2 * ZmqFrontend.spec_max_in_flight * ZmqFrontend.spec_max_payload_bytes := by
  refine ⟨?_, ?_, ?_⟩ <;>
    norm_num [ZmqFrontend.TOTAL_DATA_BYTES, ZmqFrontend.spec_max_in_flight,
      ZmqFrontend.spec_max_payload_bytes, ZmqFrontend.RESPONSE_QUEUE_SIZE,
      ZmqFrontend.SIZEOF_FLOAT]

/-- C7: for every configuration-store change event whose event type is not
`"hset"`, the frontend's state is unchanged: no application record is read,
no selection-policy state is written, and no endpoint is installed. -/
theorem C7_non_hset_ignored (store : String → AppRecord) (st : HandlerState)
    (key event_type : String) (h : event_type ≠ "hset") :
    application_changes_callback store st key event_type = ⟨st, []⟩ := by
  simp [application_changes_callback, h]

theorem C7_witness :
    ("del" : String) ≠ "hset" ∧
    application_changes_callback
        (fun _ => ⟨[], InputType.doubles, "p", "1.0", 20000⟩)
        freshHandler "alpha" "del" =
      ⟨freshHandler, []⟩ :=
  ⟨by decide,
    C7_non_hset_ignored (fun _ => ⟨[], InputType.doubles, "p", "1.0", 20000⟩)
      freshHandler "alpha" "del" (by decide)⟩

/-- C10: an `add_application` call whose policy is not the default-output
policy's name leaves the selection-policy state table unchanged, yet still
installs both the predict and the update endpoint. -/
theorem C10_non_default_policy_frame (st : HandlerState) (cfg : AppConfig)
    (h : cfg.policy ≠ default_output_policy_name) :
    (add_application st cfg).state_table = st.state_table ∧
    (add_application st cfg).endpoints =
      st.endpoints ++ [predict_endpoint cfg, update_endpoint cfg] := by
  constructor
  · simp [add_application, h]
  · simp [add_application, add_endpoint]

theorem C10_witness :
    (⟨"alpha", [], InputType.doubles, "other_policy", "7.0", 20000⟩ :
        AppConfig).policy ≠ default_output_policy_name ∧
    ((add_application freshHandler
        ⟨"alpha", [], InputType.doubles, "other_policy", "7.0", 20000⟩).state_table =
      freshHandler.state_table ∧
    (add_application freshHandler
        ⟨"alpha", [], InputType.doubles, "other_policy", "7.0", 20000⟩).endpoints =
      freshHandler.endpoints ++
        [predict_endpoint ⟨"alpha", [], InputType.doubles, "other_policy", "7.0", 20000⟩,
          update_endpoint ⟨"alpha", [], InputType.doubles, "other_policy", "7.0", 20000⟩]) :=
  ⟨by decide,
    C10_non_default_policy_frame freshHandler
      ⟨"alpha", [], InputType.doubles, "other_policy", "7.0", 20000⟩ (by decide)⟩

/-- C9: after `k` `add_application` calls with distinct names on a freshly
constructed handler, the server holds exactly `2k+1` endpoints, the
`count % 2 == 0` assertion inside `num_applications` holds, and
`num_applications` returns `k`. -/
theorem C9_num_applications (cfgs : List AppConfig)
    (h : (cfgs.map AppConfig.name).Nodup) :
    num_endpoints (cfgs.foldl add_application freshHandler) =
      2 * cfgs.length + 1 ∧
    num_applications_assertion (cfgs.foldl add_application freshHandler) ∧
    num_applications (cfgs.foldl add_application freshHandler) =
      cfgs.length := by
  have hlen := foldl_add_application_length cfgs freshHandler
  have hfresh : freshHandler.endpoints.length = 1 := rfl
  rw [hfresh] at hlen
  refine ⟨?_, ?_, ?_⟩
  · rw [num_endpoints, hlen]; omega
  · rw [num_applications_assertion, num_endpoints, hlen]; omega
  · rw [num_applications, num_endpoints, hlen]; omega

theorem C9_witness :
    (([⟨"alpha", [], InputType.doubles, "p", "1.0", 20000⟩,
        ⟨"beta", [], InputType.ints, "q", "2.0", 30000⟩] :
          List AppConfig).map AppConfig.name).Nodup ∧
    (num_endpoints
        (([⟨"alpha", [], InputType.doubles, "p", "1.0", 20000⟩,
            ⟨"beta", [], InputType.ints, "q", "2.0", 30000⟩] :
              List AppConfig).foldl add_application freshHandler) = 5 ∧
      num_applications_assertion
        (([⟨"alpha", [], InputType.doubles, "p", "1.0", 20000⟩,
            ⟨"beta", [], InputType.ints, "q", "2.0", 30000⟩] :
              List AppConfig).foldl add_application freshHandler) ∧
      num_applications
        (([⟨"alpha", [], InputType.doubles, "p", "1.0", 20000⟩,
            ⟨"beta", [], InputType.ints, "q", "2.0", 30000⟩] :
              List AppConfig).foldl add_application freshHandler) = 2) :=
  ⟨by decide,
    C9_num_applications
      [⟨"alpha", [], InputType.doubles, "p", "1.0", 20000⟩,
        ⟨"beta", [], InputType.ints, "q", "2.0", 30000⟩] (by decide)⟩

end QueryFrontend

namespace QueryFrontend

open Clipper

/-! ## C2: add_application is not first-writer-wins -/

theorem stod_onepointzero : stod "1.0" = 1 := by
  have hd : ("1.0" : String).data = ['1', '.', '0'] := rfl
  simp only [stod, hd]
  norm_num [digitsVal, List.takeWhile, List.dropWhile,
    (by decide : ('1').isDigit = true), (by decide : ('0').isDigit = true),
    (by decide : ('.').isDigit = false), (by decide : ¬('1' = '-')),
    (show ('1').toNat = 49 by rfl), (show ('0').toNat = 48 by rfl)]

theorem stod_twopointzero : stod "2.0" = 2 := by
  have hd : ("2.0" : String).data = ['2', '.', '0'] := rfl
  simp only [stod, hd]
  norm_num [digitsVal, List.takeWhile, List.dropWhile,
    (by decide : ('2').isDigit = true), (by decide : ('0').isDigit = true),
    (by decide : ('.').isDigit = false), (by decide : ¬('2' = '-')),
    (show ('2').toNat = 50 by rfl), (show ('0').toNat = 48 by rfl)]

theorem stateGet_statePut_self (t : List (StateKey × String)) (k : StateKey)
    (v : String) : stateGet (statePut t k v) k = some v := by
  rw [stateGet, statePut, List.find?_append]
  have hnone :
      (t.filter (fun p => p.1 != k)).find? (fun p => p.1 == k) = none := by
    rw [List.find?_eq_none]
    intro p hp
    have := List.of_mem_filter hp
    simpa using this
  rw [hnone]
  simp

/-- C2 counterexample: re-adding the existing application `alpha` with a
changed default output replaces the selection-policy state stored under
`(alpha, DEFAULT_USER_ID, 0)` and installs a second pair of endpoints, so
neither the state nor the endpoints are left unchanged. -/
theorem C2_counterexample :
    stateGet
        (add_application
          (add_application freshHandler
            ⟨"alpha", [], InputType.doubles, default_output_policy_name,
              "1.0", 20000⟩)
          ⟨"alpha", [], InputType.doubles, default_output_policy_name,
            "2.0", 20000⟩).state_table
        ⟨"alpha", DEFAULT_USER_ID, 0⟩ ≠
      stateGet
        (add_application freshHandler
          ⟨"alpha", [], InputType.doubles, default_output_policy_name,
            "1.0", 20000⟩).state_table
        ⟨"alpha", DEFAULT_USER_ID, 0⟩ ∧
    (add_application
        (add_application freshHandler
          ⟨"alpha", [], InputType.doubles, default_output_policy_name,
            "1.0", 20000⟩)
        ⟨"alpha", [], InputType.doubles, default_output_policy_name,
          "2.0", 20000⟩).endpoints ≠
      (add_application freshHandler
        ⟨"alpha", [], InputType.doubles, default_output_policy_name,
          "1.0", 20000⟩).endpoints := by
  have hv1 :
      default_policy_serialize
        (default_policy_init_state ⟨stod "1.0", []⟩) = "1/1" := by
    rw [stod_onepointzero]; rfl
  have hv2 :
      default_policy_serialize
        (default_policy_init_state ⟨stod "2.0", []⟩) = "2/1" := by
    rw [stod_twopointzero]; rfl
  constructor
  · have h1 :
        stateGet
          (add_application freshHandler
            ⟨"alpha", [], InputType.doubles, default_output_policy_name,
              "1.0", 20000⟩).state_table
          ⟨"alpha", DEFAULT_USER_ID, 0⟩ = some "1/1" := by
      rw [show
        (add_application freshHandler
          ⟨"alpha", [], InputType.doubles, default_output_policy_name,
            "1.0", 20000⟩).state_table =
          statePut freshHandler.state_table ⟨"alpha", DEFAULT_USER_ID, 0⟩
            (default_policy_serialize
              (default_policy_init_state ⟨stod "1.0", []⟩))
        from by simp [add_application]]
      rw [hv1]
      exact stateGet_statePut_self _ _ _
    have h2 :
        stateGet
          (add_application
            (add_application freshHandler
              ⟨"alpha", [], InputType.doubles, default_output_policy_name,
                "1.0", 20000⟩)
            ⟨"alpha", [], InputType.doubles, default_output_policy_name,
              "2.0", 20000⟩).state_table
          ⟨"alpha", DEFAULT_USER_ID, 0⟩ = some "2/1" := by
      rw [show
        (add_application
          (add_application freshHandler
            ⟨"alpha", [], InputType.doubles, default_output_policy_name,
              "1.0", 20000⟩)
          ⟨"alpha", [], InputType.doubles, default_output_policy_name,
            "2.0", 20000⟩).state_table =
          statePut
            (add_application freshHandler
              ⟨"alpha", [], InputType.doubles, default_output_policy_name,
                "1.0", 20000⟩).state_table
            ⟨"alpha", DEFAULT_USER_ID, 0⟩
            (default_policy_serialize
              (default_policy_init_state ⟨stod "2.0", []⟩))
        from by simp [add_application]]
      rw [hv2]
      exact stateGet_statePut_self _ _ _
    rw [h1, h2]
    decide
  · decide

/-- C2 (amended): `add_application` is not idempotent first-writer-wins:
every call whose policy is the default-output policy — including a call for
an already-registered name, which a second `hset` event triggers unchecked —
re-puts the serialized initial state under `(name, DEFAULT_USER_ID, 0)`
(last-writer-wins, so a changed default output replaces the stored state)
and installs a fresh predict/update endpoint pair. -/
theorem C2_add_application_rewrites (store : String → AppRecord)
    (st : HandlerState) (cfg : AppConfig) (key : String)
    (h : cfg.policy = default_output_policy_name) :
    stateGet (add_application st cfg).state_table
        ⟨cfg.name, DEFAULT_USER_ID, 0⟩ =
      some (default_policy_serialize
        (default_policy_init_state ⟨stod cfg.default_output, []⟩)) ∧
    (add_application st cfg).endpoints =
      st.endpoints ++ [predict_endpoint cfg, update_endpoint cfg] ∧
    (application_changes_callback store st key "hset").reads = [key] ∧
    (application_changes_callback store st key "hset").state =
      add_application st
        ⟨key, (store key).candidate_models, (store key).input_type,
          (store key).policy, (store key).default_output,
          (store key).latency_slo_micros⟩ := by
  refine ⟨?_, ?_, ?_, ?_⟩
  · simp only [add_application, h, if_pos]
    exact stateGet_statePut_self _ _ _
  · simp [add_application, add_endpoint]
  · simp [application_changes_callback]
  · simp [application_changes_callback]

theorem C2_witness :
    (⟨"alpha", [], InputType.doubles, default_output_policy_name, "2.0",
        20000⟩ : AppConfig).policy = default_output_policy_name ∧
    (stateGet
        (add_application freshHandler
          ⟨"alpha", [], InputType.doubles, default_output_policy_name,
            "2.0", 20000⟩).state_table
        ⟨"alpha", DEFAULT_USER_ID, 0⟩ =
      some (default_policy_serialize
        (default_policy_init_state ⟨stod "2.0", []⟩)) ∧
    (add_application freshHandler
        ⟨"alpha", [], InputType.doubles, default_output_policy_name,
          "2.0", 20000⟩).endpoints =
      freshHandler.endpoints ++
        [predict_endpoint
            ⟨"alpha", [], InputType.doubles, default_output_policy_name,
              "2.0", 20000⟩,
          update_endpoint
            ⟨"alpha", [], InputType.doubles, default_output_policy_name,
              "2.0", 20000⟩] ∧
    (application_changes_callback
        (fun _ => ⟨[], InputType.doubles, default_output_policy_name, "2.0",
          20000⟩) freshHandler "alpha" "hset").reads = ["alpha"] ∧
    (application_changes_callback
        (fun _ => ⟨[], InputType.doubles, default_output_policy_name, "2.0",
          20000⟩) freshHandler "alpha" "hset").state =
      add_application freshHandler
        ⟨"alpha", [], InputType.doubles, default_output_policy_name, "2.0",
          20000⟩) :=
  ⟨rfl,
    C2_add_application_rewrites
      (fun _ => ⟨[], InputType.doubles, default_output_policy_name, "2.0",
        20000⟩)
      freshHandler
      ⟨"alpha", [], InputType.doubles, default_output_policy_name, "2.0",
        20000⟩
      "alpha" rfl⟩

/-! ## C5: the predict decoder rejects string uids -/

/-- The body of spec scenario S1 — `{"uid":"u1","input":[1.0,2.0,3.0]}` —
as a parsed JSON document: `uid` is string-valued and `input` is an array
of doubles matching `input_type = f64`. -/
def s1_request_body : JVal :=
  JVal.jObj [("uid", JVal.jStr "u1"),
    ("input", JVal.jArr [JVal.jDouble 1, JVal.jDouble 2, JVal.jDouble 3])]

/-- The same body with an integer uid. -/
def s1_request_body_int_uid : JVal :=
  JVal.jObj [("uid", JVal.jInt 1),
    ("input", JVal.jArr [JVal.jDouble 1, JVal.jDouble 2, JVal.jDouble 3])]

/-- C5 (code bug): `decode_and_handle_predict` reads `uid` with `get_long`,
so the schema-conforming body `{"uid":"u1","input":[1.0,2.0,3.0]}` — whose
`uid` is a string as the code's own `PREDICTION_JSON_SCHEMA` requires — is
rejected with a JSON semantic error (hence a 400 response) instead of being
handed to the query processor; the same body with an integer uid decodes
and reaches the processor. -/
theorem C5_string_uid_rejected :
    decode_and_handle_predict s1_request_body "alpha" [⟨"m", 1⟩]
        default_output_policy_name 20000 InputType.doubles =
      Except.error (JsonErr.semanticErr "uid") ∧
    (predict_fn_respond (PredictOutcome.jsonSemanticError "uid")).status =
      "400 Bad Request" ∧
    decode_and_handle_predict s1_request_body_int_uid "alpha" [⟨"m", 1⟩]
        default_output_policy_name 20000 InputType.doubles =
      Except.ok
        ⟨"alpha", 1, [JVal.jDouble 1, JVal.jDouble 2, JVal.jDouble 3],
          20000, default_output_policy_name, [⟨"m", 1⟩]⟩ := by
  refine ⟨rfl, rfl, rfl⟩

end QueryFrontend

namespace QueryFrontend

/-! ## C8: the wire written by respond_http -/

theorem natToDecimalAux_isDigit (n : Nat) :
    ∀ acc : List Char, (∀ c ∈ acc, c.isDigit) →
      ∀ c ∈ natToDecimalAux n acc, c.isDigit := by
  induction n using Nat.strong_induction_on with
  | _ n ih =>
    match n with
    | 0 =>
        intro acc hacc c hc
        rw [natToDecimalAux] at hc
        exact hacc c hc
    | m + 1 =>
        intro acc hacc c hc
        rw [natToDecimalAux] at hc
        refine ih ((m + 1) / 10)
          (Nat.div_lt_self (Nat.succ_pos m) (by norm_num)) _ ?_ c hc
        intro d hd
        rcases List.mem_cons.mp hd with rfl | hd
        · have h10 : (m + 1) % 10 < 10 := Nat.mod_lt _ (by norm_num)
          set r := (m + 1) % 10 with hr
          interval_cases r <;> decide
        · exact hacc d hd

theorem natToDecimal_isDigit (n : Nat) :
    ∀ c ∈ natToDecimal n, c.isDigit := by
  rw [natToDecimal]
  split
  · intro c hc; rcases List.mem_singleton.mp hc with rfl; decide
  · exact natToDecimalAux_isDigit n [] (by intro c hc; cases hc)

theorem natToDecimalAux_eq_append (n : Nat) :
    ∀ acc : List Char, natToDecimalAux n acc = natToDecimalAux n [] ++ acc := by
  induction n using Nat.strong_induction_on with
  | _ n ih =>
    match n with
    | 0 => intro acc; rw [natToDecimalAux, natToDecimalAux]; rfl
    | m + 1 =>
        intro acc
        rw [natToDecimalAux]
        rw [ih ((m + 1) / 10) (Nat.div_lt_self (Nat.succ_pos m) (by norm_num))
          (Char.ofNat (48 + (m + 1) % 10) :: acc)]
        conv_rhs => rw [natToDecimalAux]
        rw [ih ((m + 1) / 10) (Nat.div_lt_self (Nat.succ_pos m) (by norm_num))
          [Char.ofNat (48 + (m + 1) % 10)]]
        simp

theorem foldl_digits_shift (l : List Char) :
    ∀ a : Nat, l.foldl (fun a c => a * 10 + (c.toNat - 48)) a =
      a * 10 ^ l.length + digitsVal l := by
  induction l with
  | nil => intro a; simp [digitsVal]
  | cons c l ih =>
      intro a
      rw [List.foldl_cons, ih]
      rw [show digitsVal (c :: l) =
        List.foldl (fun a c => a * 10 + (c.toNat - 48))
          (0 * 10 + (c.toNat - 48)) l from rfl]
      rw [ih]
      simp [List.length_cons, pow_succ, digitsVal]
      ring

theorem digitsVal_append (l1 l2 : List Char) :
    digitsVal (l1 ++ l2) = digitsVal l1 * 10 ^ l2.length + digitsVal l2 := by
  rw [digitsVal, List.foldl_append, foldl_digits_shift]
  rfl

theorem char_ofNat_digit_toNat (r : Nat) (h : r < 10) :
    (Char.ofNat (48 + r)).toNat = 48 + r := by
  interval_cases r <;> decide

theorem digitsVal_natToDecimalAux (n : Nat) (hn : n ≠ 0) :
    digitsVal (natToDecimalAux n []) = n := by
  induction n using Nat.strong_induction_on with
  | _ n ih =>
    match n with
    | 0 => exact absurd rfl hn
    | m + 1 =>
        rw [natToDecimalAux, natToDecimalAux_eq_append]
        rw [digitsVal_append]
        have hd : digitsVal [Char.ofNat (48 + (m + 1) % 10)] = (m + 1) % 10 := by
          rw [digitsVal, List.foldl_cons, List.foldl_nil,
            char_ofNat_digit_toNat _ (Nat.mod_lt _ (by norm_num))]
          omega
        rw [hd]
        by_cases hq : (m + 1) / 10 = 0
        · rw [hq]
          rw [natToDecimalAux]
          rw [show digitsVal ([] : List Char) = 0 from rfl]
          simp
          omega
        · rw [ih ((m + 1) / 10)
            (Nat.div_lt_self (Nat.succ_pos m) (by norm_num)) hq]
          simp [List.length_cons]
          omega

theorem digitsVal_natToDecimal (n : Nat) :
    digitsVal (natToDecimal n) = n := by
  rw [natToDecimal]
  split
  · rename_i h
    subst h
    decide
  · rename_i h
    exact digitsVal_natToDecimalAux n h

theorem splitAtBlank_cons_ne (c : Char) (l : List Char) (hc : c ≠ '\r') :
    splitAtBlank (c :: l) = (splitAtBlank l).map (fun p => (c :: p.1, p.2)) := by
  rw [splitAtBlank]
  rw [if_neg]
  intro h
  rw [List.take_succ_cons] at h
  have := (List.cons_eq_cons.mp h).1
  exact hc this

theorem splitAtBlank_append (l s : List Char) (hl : ∀ c ∈ l, c ≠ '\r') :
    splitAtBlank (l ++ s) = (splitAtBlank s).map (fun p => (l ++ p.1, p.2)) := by
  induction l with
  | nil =>
      rw [List.nil_append]
      cases splitAtBlank s <;> simp
  | cons c l ih =>
      rw [List.cons_append,
        splitAtBlank_cons_ne c _ (hl c (List.mem_cons_self c l)),
        ih (fun d hd => hl d (List.mem_cons_of_mem c hd))]
      cases splitAtBlank s <;> simp

theorem splitAtBlank_crlfcrlf (body : List Char) :
    splitAtBlank ('\r' :: '\n' :: '\r' :: '\n' :: body) = some ([], body) := by
  rw [splitAtBlank]
  rw [if_pos]
  · simp
  · simp [List.take_succ_cons]

theorem splitAtBlank_header (b : Char) (B body : List Char) (hb : b ≠ '\r')
    (hB : ∀ c ∈ B, c ≠ '\r') :
    splitAtBlank
        ('\r' :: '\n' :: b :: (B ++ '\r' :: '\n' :: '\r' :: '\n' :: body)) =
      some ('\r' :: '\n' :: b :: B, body) := by
  rw [splitAtBlank]
  rw [if_neg]
  · rw [splitAtBlank_cons_ne '\n' _ (by decide)]
    rw [show b :: (B ++ '\r' :: '\n' :: '\r' :: '\n' :: body) =
      (b :: B) ++ '\r' :: '\n' :: '\r' :: '\n' :: body from rfl]
    rw [splitAtBlank_append (b :: B) _ (by
      intro c hc
      rcases List.mem_cons.mp hc with rfl | hc
      · exact hb
      · exact hB c hc)]
    rw [splitAtBlank_crlfcrlf]
    simp
  · intro h
    rw [List.take_succ_cons, List.take_succ_cons, List.take_succ_cons] at h
    have := (List.cons_eq_cons.mp (List.cons_eq_cons.mp h).2).2
    exact hb (List.cons_eq_cons.mp this).1

theorem isDigit_ne_cr (c : Char) (h : c.isDigit) : c ≠ '\r' := by
  rintro rfl
  exact absurd h (by decide)

theorem takeWhile_digits_append (l : List Char) (c : Char) (r : List Char)
    (hl : ∀ x ∈ l, x.isDigit) (hc : c.isDigit = false) :
    (l ++ c :: r).takeWhile Char.isDigit = l := by
  induction l with
  | nil => simp [List.takeWhile_cons, hc]
  | cons a l ih =>
      rw [List.cons_append, List.takeWhile_cons, hl a (List.mem_cons_self a l)]
      simp only [if_true]
      rw [ih (fun x hx => hl x (List.mem_cons_of_mem a hx))]

/-- C8: `respond_http` declares a Content-Length equal to `content.length()`,
but the body it actually transmits — the characters after the first blank
line of the wire — is `content` followed by one extra newline, one byte
longer than declared. Stated for status messages free of carriage returns,
as every status the frontend uses is. -/
theorem C8_respond_http_content_length (content message : String)
    (hm : ∀ c ∈ message.data, c ≠ '\r') :
    splitAtBlank (respond_http content message) =
      some ("HTTP/1.1 ".data ++ message.data ++ "\r\nContent-Length: ".data ++
          natToDecimal content.length,
        content.data ++ ['\n']) ∧
    declared_content_length
        ("HTTP/1.1 ".data ++ message.data ++ "\r\nContent-Length: ".data ++
          natToDecimal content.length) = content.length ∧
    (content.data ++ ['\n']).length = content.length + 1 := by
  have hL : ∀ c ∈ ("HTTP/1.1 ".data ++ message.data), c ≠ '\r' := by
    intro c hc
    rcases List.mem_append.mp hc with h | h
    · exact (by decide : ∀ c ∈ "HTTP/1.1 ".data, c ≠ '\r') c h
    · exact hm c h
  have hB : ∀ c ∈ ("ontent-Length: ".data ++ natToDecimal content.length),
      c ≠ '\r' := by
    intro c hc
    rcases List.mem_append.mp hc with h | h
    · exact (by decide : ∀ c ∈ "ontent-Length: ".data, c ≠ '\r') c h
    · exact isDigit_ne_cr c (natToDecimal_isDigit _ c h)
  refine ⟨?_, ?_, ?_⟩
  · have hwire : respond_http content message =
        ("HTTP/1.1 ".data ++ message.data) ++
          ('\r' :: '\n' :: 'C' ::
            (("ontent-Length: ".data ++ natToDecimal content.length) ++
              '\r' :: '\n' :: '\r' :: '\n' :: (content.data ++ ['\n']))) := by
      rw [respond_http]
      rw [show ("\r\nContent-Length: " : String).data =
        '\r' :: '\n' :: 'C' :: "ontent-Length: ".data from rfl]
      rw [show ("\r\n\r\n" : String).data = ['\r', '\n', '\r', '\n'] from rfl]
      rw [show ("\n" : String).data = ['\n'] from rfl]
      simp [List.append_assoc]
    rw [hwire, splitAtBlank_append _ _ hL,
      splitAtBlank_header 'C' _ _ (by decide) hB]
    simp [List.append_assoc,
      (show ("\r\nContent-Length: " : String).data =
        '\r' :: '\n' :: 'C' :: "ontent-Length: ".data from rfl)]
  · rw [declared_content_length]
    rw [show ("\r\nContent-Length: " : String).data =
      "\r\nContent-Length:".data ++ [' '] from rfl]
    simp only [List.reverse_append, List.reverse_cons, List.reverse_nil,
      List.nil_append, List.append_assoc, List.cons_append,
      List.singleton_append]
    rw [takeWhile_digits_append _ ' ' _
      (fun x hx => natToDecimal_isDigit _ x (List.mem_reverse.mp hx))
      (by decide)]
    rw [List.reverse_reverse, digitsVal_natToDecimal]
  · rw [List.length_append]
    rfl

theorem C8_witness :
    (∀ c ∈ ("200 OK" : String).data, c ≠ '\r') ∧
    (splitAtBlank (respond_http "ok" "200 OK") =
      some ("HTTP/1.1 ".data ++ ("200 OK" : String).data ++
          "\r\nContent-Length: ".data ++
          natToDecimal ("ok" : String).length,
        ("ok" : String).data ++ ['\n']) ∧
    declared_content_length
        ("HTTP/1.1 ".data ++ ("200 OK" : String).data ++
          "\r\nContent-Length: ".data ++
          natToDecimal ("ok" : String).length) = ("ok" : String).length ∧
    (("ok" : String).data ++ ['\n']).length = ("ok" : String).length + 1) :=
  ⟨by decide, C8_respond_http_content_length "ok" "200 OK" (by decide)⟩

end QueryFrontend
